import Mathlib

/-!
Verification development for the Cook-Shop repository (a Flask restaurant-menu
storefront, `src/app.py` + `src/supabase_helpers.py`).

The embedding is shallow and executable:

* the module-level cache globals of `supabase_helpers.py`
  (`_products_cache`, `_products_cache_time`, `_categories_cache`,
  `_categories_cache_time`) become the `CacheState` structure, threaded
  explicitly;
* the two on-disk JSON files become the `Disk` structure; a file is `absent`,
  `corrupt` (present but unparseable) or `content data`;
* the remote Supabase backend is an `Option` value: `some rows` when reachable
  (a list call returns `rows`), `none` when unreachable;
* timestamps are natural-number seconds; prices are exact cent amounts
  (`Cents := Int`), matching the dollar floats the source stores for every
  scenario considered here (all exactly representable);
* read operations additionally report `remoteCalls`, the number of remote
  list/refresh attempts the call issued, and the checkout handler reports the
  inventory-decrement calls it issued, so that side effects of interest are
  observable in the model.

A scoping detail of the source that the model reproduces faithfully: every
function except `_load_json_cache` declares only the cache *value* variable
`global`, never the `_*_cache_time` variable, so assignments such as
`_products_cache_time = datetime.now().timestamp()` in `list_items`,
`create_item`, etc. bind a function-local name and leave the module-level
timestamp untouched.  Only `_load_json_cache` (which declares all four names
global) ever advances the snapshot timestamps.
-/

/-- Prices are modelled as exact cent amounts. -/
abbrev Cents := Int

/-- The whitespace characters Python `str.strip()` removes. -/
def pyWhitespace (c : Char) : Bool :=
  c == ' ' || c == '\t' || c == '\n' || c == '\r' || c == '\x0b' || c == '\x0c'

/-- Python `s.strip()`.  Implemented structurally over the character list so
that concrete instances reduce in the kernel. -/
def pyStrip (s : String) : String :=
  ⟨((s.data.dropWhile pyWhitespace).reverse.dropWhile pyWhitespace).reverse⟩

/-- Python `s.lstrip('+')`. -/
def pyLStripPlus (s : String) : String :=
  ⟨s.data.dropWhile (fun c => c == '+')⟩

/-- Digits of a decimal literal, `none` when empty or a non-digit occurs. -/
def digitsToNat (cs : List Char) : Option Nat :=
  if cs.isEmpty then none
  else cs.foldl (fun acc c =>
    match acc with
    | none => none
    | some n => if c.isDigit then some (n * 10 + (c.toNat - 48)) else none) (some 0)

/-- Python `int(s)` on the string ids arriving from the session cart: an
optional sign followed by decimal digits; anything else raises, modelled as
`none` (the caller catches the exception and returns `None`). -/
def pyParseInt (s : String) : Option Int :=
  match s.data with
  | '-' :: rest => (digitsToNat rest).map (fun n => -(n : Int))
  | '+' :: rest => (digitsToNat rest).map (fun n => (n : Int))
  | cs => (digitsToNat cs).map (fun n => (n : Int))

/-- A menu item as stored in the products snapshot (`supabase_helpers.py`,
`create_item`): id, category, name, optional description/price/image, a
quantity (inventory count) and a creation timestamp string. -/
structure MenuItem where
  id : Int
  category_id : Int
  name : String
  description : Option String
  price : Option Cents
  image_url : Option String
  quantity : Int
  created_at : String
deriving Repr, DecidableEq

/-- A category as stored in the categories snapshot. -/
structure Category where
  id : Int
  name : String
  slug : String
deriving Repr, DecidableEq

/-- State of one on-disk JSON cache file: missing, present but unparseable,
or present with parsed contents. -/
inductive FileState (α : Type) where
  | absent
  | corrupt
  | content (data : α)
deriving Repr, DecidableEq

/-- The two on-disk cache files (`products.json`, `categories.json`). -/
structure Disk where
  products : FileState (List MenuItem)
  categories : FileState (List Category)
deriving Repr, DecidableEq

/-- The module-level cache globals of `supabase_helpers.py`.  `none` models
the Python `None` initial value of `_products_cache` / `_categories_cache`. -/
structure CacheState where
  products_cache : Option (List MenuItem)
  products_cache_time : Nat
  categories_cache : Option (List Category)
  categories_cache_time : Nat
deriving Repr, DecidableEq

/-- `CACHE_DURATION = 30  # seconds`. -/
def CACHE_DURATION : Nat := 30

/-- The hardcoded fallback `[{"id": 1, "name": "All", "slug": "all"}]`. -/
def defaultAllCategories : List Category :=
  [{ id := 1, name := "All", slug := "all" }]

/-- The products half of `_load_json_cache`: reload from `products.json` when
the in-memory snapshot is `None` or older than `CACHE_DURATION` seconds.  The
timestamp is advanced only when the file is read successfully; a missing or
unparseable file installs `[]` without touching the timestamp, exactly as in
the source. -/
def loadProductsPart (now : Nat) (disk : Disk) (st : CacheState) : CacheState :=
  if st.products_cache.isNone ∨ now - st.products_cache_time > CACHE_DURATION then
    match disk.products with
    | .content data => { st with products_cache := some data, products_cache_time := now }
    | .corrupt => { st with products_cache := some [] }
    | .absent => { st with products_cache := some [] }
  else st

/-- The categories half of `_load_json_cache`: like `loadProductsPart`, but a
missing or unparseable file installs the hardcoded default "All" category. -/
def loadCategoriesPart (now : Nat) (disk : Disk) (st : CacheState) : CacheState :=
  if st.categories_cache.isNone ∨ now - st.categories_cache_time > CACHE_DURATION then
    match disk.categories with
    | .content data => { st with categories_cache := some data, categories_cache_time := now }
    | .corrupt => { st with categories_cache := some defaultAllCategories }
    | .absent => { st with categories_cache := some defaultAllCategories }
  else st

/-- `_load_json_cache()`: refresh both snapshots from disk if expired. -/
def load_json_cache (now : Nat) (disk : Disk) (st : CacheState) : CacheState :=
  loadCategoriesPart now disk (loadProductsPart now disk st)

/-- `_save_json_cache()`: write each snapshot to its file, but only when the
snapshot is truthy (non-`None` and non-empty) — `if _products_cache:` /
`if _categories_cache:` in the source. -/
def save_json_cache (st : CacheState) (disk : Disk) : Disk :=
  let d1 := if (st.products_cache.getD []) ≠ [] then
    { disk with products := .content (st.products_cache.getD []) } else disk
  if (st.categories_cache.getD []) ≠ [] then
    { d1 with categories := .content (st.categories_cache.getD []) } else d1

/-- Result of a read operation: the returned sequence, the cache state after
the call, and how many remote list/refresh attempts were issued. -/
structure ReadResult (α : Type) where
  value : α
  state : CacheState
  remoteCalls : Nat
deriving Repr, DecidableEq

/-- `list_items()`: serve the (re)loaded snapshot when non-empty, else attempt
one remote refresh.  On remote success the snapshot value is replaced but the
module-level timestamp is not (the `global` declaration covers only
`_products_cache`); on remote failure `[]` is returned without caching it. -/
def list_items (now : Nat) (disk : Disk) (remote : Option (List MenuItem))
    (st : CacheState) : ReadResult (List MenuItem) :=
  let st := load_json_cache now disk st
  let products := st.products_cache.getD []
  if products ≠ [] then
    { value := products, state := st, remoteCalls := 0 }
  else
    match remote with
    | some data => { value := data, state := { st with products_cache := some data }, remoteCalls := 1 }
    | none => { value := [], state := st, remoteCalls := 1 }

/-- `list_categories()`: serve the (re)loaded snapshot when non-empty, else
attempt one remote refresh; on remote failure the hardcoded "All" default is
returned without caching it. -/
def list_categories (now : Nat) (disk : Disk) (remote : Option (List Category))
    (st : CacheState) : ReadResult (List Category) :=
  let st := load_json_cache now disk st
  let cats := st.categories_cache.getD []
  if cats ≠ [] then
    { value := cats, state := st, remoteCalls := 0 }
  else
    match remote with
    | some data => { value := data, state := { st with categories_cache := some data }, remoteCalls := 1 }
    | none => { value := defaultAllCategories, state := st, remoteCalls := 1 }

/-- Python `(s or "").strip() or None`: trim, and turn an absent or
all-whitespace string into `None`. -/
def strippedOrNone (s : Option String) : Option String :=
  let t := pyStrip (s.getD "")
  if t = "" then none else some t

/-- Python `name.lower().replace(' ', '-')`. -/
def slugify (name : String) : String :=
  ⟨(name.data.map Char.toLower).map (fun c => if c == ' ' then '-' else c)⟩

/-- `max([ids] + [0]) + 1`, the id assigned by the create operations. -/
def new_id_of (ids : List Int) : Int :=
  ids.foldl max 0 + 1

/-- Apply `g` to the first element satisfying `p`, leaving the rest unchanged —
the `for ...: if ...: ...; break` update loops of the source. -/
def updateFirst (p : α → Bool) (g : α → α) : List α → List α
  | [] => []
  | x :: xs => if p x then g x :: xs else x :: updateFirst p g xs

/-- `create_category(name)`: validate the stripped name (raising
`ValueError("Category name is required")` when empty, before any cache
access), then append `{id := max ids + 1, name, slug}` to the loaded snapshot
and save.  The module-level timestamp is not advanced (see the header note on
`global`). -/
def create_category (now : Nat) (disk : Disk) (st : CacheState) (name : String) :
    Except String (CacheState × Disk) :=
  let name := pyStrip name
  if name = "" then .error "Category name is required"
  else
    let st := load_json_cache now disk st
    let categories := st.categories_cache.getD []
    let newCat : Category :=
      { id := new_id_of (categories.map (·.id)), name := name, slug := slugify name }
    let st := { st with categories_cache := some (categories ++ [newCat]) }
    .ok (st, save_json_cache st disk)

/-- `create_item(category_id, name, ...)`: validate the stripped name (raising
`ValueError("Item name is required")` when empty, before any cache access),
then append the new item, with id `max ids + 1`, to the loaded snapshot and
save.  `nowStr` is the `datetime.utcnow().isoformat()` creation stamp. -/
def create_item (now : Nat) (nowStr : String) (disk : Disk) (st : CacheState)
    (category_id : Int) (name : String) (description : Option String)
    (price : Option Cents) (image_url : Option String) (quantity : Option Int) :
    Except String (CacheState × Disk) :=
  let name := pyStrip name
  if name = "" then .error "Item name is required"
  else
    let st := load_json_cache now disk st
    let products := st.products_cache.getD []
    let newItem : MenuItem :=
      { id := new_id_of (products.map (·.id))
        category_id := category_id
        name := name
        description := strippedOrNone description
        price := price
        image_url := strippedOrNone image_url
        quantity := quantity.getD 0
        created_at := nowStr }
    let st := { st with products_cache := some (products ++ [newItem]) }
    .ok (st, save_json_cache st disk)

/-- `update_item(item_id, name, ...)`: no validation of any field; overwrite
the first item with matching id (name stripped, description/image normalised,
price replaced, quantity replaced only when supplied), then save.  When no
item matches, the snapshot is re-saved unchanged. -/
def update_item (now : Nat) (disk : Disk) (st : CacheState) (item_id : Int)
    (name : String) (description : Option String) (price : Option Cents)
    (image_url : Option String) (quantity : Option Int) : CacheState × Disk :=
  let st := load_json_cache now disk st
  let products := updateFirst (fun item => item.id == item_id)
    (fun item =>
      { item with
        name := pyStrip name
        description := strippedOrNone description
        price := price
        image_url := strippedOrNone image_url
        quantity := quantity.getD item.quantity })
    (st.products_cache.getD [])
  let st := { st with products_cache := some products }
  (st, save_json_cache st disk)

/-- `delete_item(item_id)`: drop every item with the given id from the loaded
snapshot, then save. -/
def delete_item (now : Nat) (disk : Disk) (st : CacheState) (item_id : Int) :
    CacheState × Disk :=
  let st := load_json_cache now disk st
  let products := (st.products_cache.getD []).filter (fun p => p.id != item_id)
  let st := { st with products_cache := some products }
  (st, save_json_cache st disk)

/-- Arguments of one `create_item` call, for iterating sequential creates. -/
structure ItemArgs where
  category_id : Int
  name : String
  description : Option String
  price : Option Cents
  image_url : Option String
  quantity : Option Int
deriving Repr, DecidableEq

/-- Run a list of `create_item` calls sequentially at a fixed timestamp (no
TTL expiry intervenes between the calls); a call that raises leaves the state
unchanged, as the raised `ValueError` aborts that request before mutation. -/
def runCreates (now : Nat) (nowStr : String) :
    List ItemArgs → CacheState × Disk → CacheState × Disk
  | [], sd => sd
  | a :: rest, sd =>
      let sd' :=
        match create_item now nowStr sd.2 sd.1 a.category_id a.name
            a.description a.price a.image_url a.quantity with
        | .ok sd' => sd'
        | .error _ => sd
      runCreates now nowStr rest sd'

/-- `change_item_quantity(item_id, delta)`: read the current quantity of the
item from the remote store; when the select returns a row, write back
`max(0, current + delta)` to every row with that id.  The Python function has
no `return` statement, so its value is `None` on every path — modelled by the
second component, which is always `none`. -/
def change_item_quantity (store : List MenuItem) (item_id : Int) (delta : Int) :
    List MenuItem × Option Bool :=
  match store.find? (fun r => r.id == item_id) with
  | some r =>
      (store.map (fun x =>
        if x.id == item_id then { x with quantity := max 0 (r.quantity + delta) } else x),
       none)
  | none => (store, none)

/-- The session cart: a Flask-session Python dict from string-encoded item id
to quantity, modelled as an insertion-ordered association list. -/
abbrev Cart := List (String × Int)

/-- Dict read `cart.get(k)`. -/
def lookupCart (cart : Cart) (k : String) : Option Int :=
  (cart.find? (fun e => e.1 == k)).map (·.2)

/-- Dict write `cart[k] = v`: update the existing key in place (keeping
insertion order) or append a new one, Python dict semantics. -/
def setCart (cart : Cart) (k : String) (v : Int) : Cart :=
  if (cart.find? (fun e => e.1 == k)).isSome then
    cart.map (fun e => if e.1 == k then (k, v) else e)
  else cart ++ [(k, v)]

/-- `cart_add` route (`app.py`):
`cart[str(item_id)] = cart.get(str(item_id), 0) + max(1, qty)`. -/
def cart_add (cart : Cart) (item_id : Int) (qty : Int) : Cart :=
  setCart cart (toString item_id) ((lookupCart cart (toString item_id)).getD 0 + max 1 qty)

/-- Apply a sequence of cart-add requests `(item_id, qty)` to a cart. -/
def applyAdds : List (Int × Int) → Cart → Cart
  | [], cart => cart
  | (i, q) :: rest, cart => applyAdds rest (cart_add cart i q)

/-- Python `==` between an integer and a string: always `False` (no coercion).
The cart handlers pass the *string* cart key to `get_item`, whose local-cache
scan compares it with the integer `item.get('id')`. -/
def pyIntEqStr (_ : Int) (_ : String) : Bool := false

/-- `get_item(item_id)` as invoked from the cart handlers, where `item_id` is
the string cart key: the snapshot scan `item.get('id') == item_id` compares an
integer to a string and never matches, so only the remote fallback (which
converts with `int(item_id)`) can find the item; a failed conversion or an
unreachable remote yields `None`. -/
def get_item_str (products : List MenuItem) (remote : Option (List MenuItem))
    (item_id : String) : Option MenuItem :=
  match products.find? (fun item => pyIntEqStr item.id item_id) with
  | some item => some item
  | none =>
    match remote, pyParseInt item_id with
    | some rows, some i => rows.find? (fun item => item.id == i)
    | _, _ => none

/-- Renders a nonnegative cent amount the way Python f-string `:.2f`
formatting renders the corresponding dollar float (the amounts arising in the
claims are nonnegative and exactly representable). -/
def fmtUsd (c : Cents) : String :=
  let n := c.toNat
  toString (n / 100) ++ "." ++ (if n % 100 < 10 then "0" else "") ++ toString (n % 100)

/-- The 32-dash separator line of the checkout message. -/
def sepLine : String := "--------------------------------"

/-- Where the checkout request redirects. -/
inductive CheckoutRedirect where
  | waLink (phoneDigits : String) (messageLines : List String)
  | cartView
  | adminSettings
deriving Repr, DecidableEq

/-- Observable outcome of the `cart_checkout` route: the message lines built,
the session cart after the request, the inventory-decrement calls the handler
issued to the cache layer, and the redirect taken. -/
structure CheckoutOutcome where
  messageLines : List String
  cart : Cart
  decrements : List (String × Int)
  redirect : CheckoutRedirect
deriving Repr, DecidableEq

/-- `cart_checkout` route (`app.py`): empty cart redirects back to the cart
view; otherwise build the message (header, separator, one line per resolvable
item, separator, subtotal — items `get_item` cannot resolve are skipped), then
either redirect to the wa.me deep link and pop the cart (phone configured) or
redirect to admin settings leaving the cart untouched.  The handler issues no
inventory-decrement calls on any path. -/
def cart_checkout (whatsapp_phone : String) (customer_name : String)
    (cart : Cart) (products : List MenuItem) (remote : Option (List MenuItem)) :
    CheckoutOutcome :=
  let customer := if pyStrip customer_name = "" then "Guest" else pyStrip customer_name
  if cart = [] then
    { messageLines := [], cart := cart, decrements := [], redirect := .cartView }
  else
    let step := fun (acc : List String × Cents) (e : String × Int) =>
      match get_item_str products remote e.1 with
      | none => acc
      | some itm =>
          let price := itm.price.getD 0
          let lineTotal := price * e.2
          (acc.1 ++ [itm.name ++ " x" ++ toString e.2 ++ " - $" ++ fmtUsd lineTotal],
           acc.2 + lineTotal)
    let built := cart.foldl step ([], 0)
    let lines := ["Order for " ++ customer, sepLine] ++ built.1
      ++ [sepLine, "Subtotal: $" ++ fmtUsd built.2]
    if whatsapp_phone = "" then
      { messageLines := lines, cart := cart, decrements := [], redirect := .adminSettings }
    else
      { messageLines := lines, cart := [], decrements := [],
        redirect := .waLink (pyLStripPlus whatsapp_phone) lines }

/-- Sample item 7 (the "Soda" of spec property P6), price $1.50, quantity 2. -/
def sodaItem : MenuItem :=
  { id := 7, category_id := 1, name := "Soda", description := none,
    price := some 150, image_url := none, quantity := 2, created_at := "t0" }

/-- A sample non-default category, as the remote store would return it. -/
def startersCat : Category := { id := 2, name := "Starters", slug := "starters" }

/-- A second sample item, id 8. -/
def teaItem : MenuItem :=
  { id := 8, category_id := 1, name := "Tea", description := none,
    price := some 100, image_url := none, quantity := 5, created_at := "t1" }

/-- Disk state whose products file holds exactly `[sodaItem]`. -/
def diskFull : Disk :=
  { products := FileState.content [sodaItem],
    categories := FileState.content defaultAllCategories }

/-- Disk state with neither cache file present. -/
def diskEmpty : Disk :=
  { products := FileState.absent, categories := FileState.absent }

/-- Cache state holding the snapshot `[sodaItem]`, loaded at time 0. -/
def stLoaded : CacheState :=
  { products_cache := some [sodaItem], products_cache_time := 0,
    categories_cache := some defaultAllCategories, categories_cache_time := 0 }

/-- Initial cache state: nothing loaded yet (both globals `None`). -/
def stEmpty : CacheState :=
  { products_cache := none, products_cache_time := 0,
    categories_cache := none, categories_cache_time := 0 }

/-- The item `create_item 0 "t1" diskFull stLoaded 1 "Tea" ...` appends:
id `max {7} + 1 = 8`. -/
def teaCreated : MenuItem :=
  { id := 8, category_id := 1, name := "Tea", description := none,
    price := none, image_url := none, quantity := 0, created_at := "t1" }

/-- Cache state after that create. -/
def stAfterCreate : CacheState :=
  { products_cache := some [sodaItem, teaCreated], products_cache_time := 0,
    categories_cache := some defaultAllCategories, categories_cache_time := 0 }

/-- Disk state after that create. -/
def diskAfterCreate : Disk :=
  { products := FileState.content [sodaItem, teaCreated],
    categories := FileState.content defaultAllCategories }

/-- The ids `[1, 2, ..., n]` as integers. -/
def idsOfN (n : Nat) : List Int :=
  (List.range n).map (fun (k : Nat) => (k : Int) + 1)

/-- A cache state whose two snapshots are both loaded and timestamped `now`
(the state the sequential-create scenario runs in: no TTL expiry intervenes
between the calls). -/
def freshState (now : Nat) (l : List MenuItem) : CacheState :=
  { products_cache := some l, products_cache_time := now,
    categories_cache := some defaultAllCategories, categories_cache_time := now }

/-- The item a `create_item` call appends to the snapshot `l` (the `new_item`
dict of the source, with id `max ids + 1`). -/
def createdItem (l : List MenuItem) (cid : Int) (nm : String) (dsc : Option String)
    (pr : Option Cents) (img : Option String) (qt : Option Int) (nowStr : String) :
    MenuItem :=
  { id := new_id_of (l.map (fun i => i.id)), category_id := cid, name := pyStrip nm,
    description := strippedOrNone dsc, price := pr, image_url := strippedOrNone img,
    quantity := qt.getD 0, created_at := nowStr }

/- ### Supporting lemmas -/

/-- The categories half of the loader never touches the products fields. -/
theorem loadCategoriesPart_products_cache (now : Nat) (disk : Disk) (st : CacheState) :
    (loadCategoriesPart now disk st).products_cache = st.products_cache := by
  unfold loadCategoriesPart
  split
  · split <;> rfl
  · rfl

/-- The categories half of the loader never touches the products timestamp. -/
theorem loadCategoriesPart_products_cache_time (now : Nat) (disk : Disk) (st : CacheState) :
    (loadCategoriesPart now disk st).products_cache_time = st.products_cache_time := by
  unfold loadCategoriesPart
  split
  · split <;> rfl
  · rfl

/-- A fresh snapshot (timestamped `now`) is not reloaded. -/
theorem load_fresh (now : Nat) (disk : Disk) (p : List MenuItem) (c : List Category) :
    load_json_cache now disk
      { products_cache := some p, products_cache_time := now,
        categories_cache := some c, categories_cache_time := now }
      = { products_cache := some p, products_cache_time := now,
          categories_cache := some c, categories_cache_time := now } := by
  unfold load_json_cache loadProductsPart loadCategoriesPart
  rw [if_neg (by simp [CACHE_DURATION]), if_neg (by simp [CACHE_DURATION])]

/-- What the saver leaves in the products file. -/
theorem save_products_file (st : CacheState) (disk : Disk) :
    (save_json_cache st disk).products =
      if st.products_cache.getD [] ≠ [] then FileState.content (st.products_cache.getD [])
      else disk.products := by
  unfold save_json_cache
  by_cases h1 : st.products_cache.getD [] ≠ [] <;>
    by_cases h2 : st.categories_cache.getD [] ≠ [] <;> simp [h1, h2]

theorem idsOfN_succ (n : Nat) : idsOfN (n + 1) = idsOfN n ++ [(n : Int) + 1] := by
  unfold idsOfN
  rw [List.range_succ, List.map_append]
  rfl

theorem foldl_max_idsOfN (n : Nat) : (idsOfN n).foldl max 0 = (n : Int) := by
  induction n with
  | zero => rfl
  | succ n ih =>
      rw [idsOfN_succ, List.foldl_append, ih]
      show max (n : Int) ((n : Int) + 1) = (n : Int) + 1
      exact max_eq_right (by omega)

/-- The id the create operations assign on a snapshot with ids `[1..n]`. -/
theorem new_id_of_idsOfN (n : Nat) : new_id_of (idsOfN n) = (n : Int) + 1 := by
  unfold new_id_of
  rw [foldl_max_idsOfN]

theorem idsOfN_nodup (n : Nat) : (idsOfN n).Nodup :=
  (List.nodup_range n).map (fun a b h => by omega)

/-- Ids `[1..n]` are exactly the integers between 1 and `n`. -/
theorem mem_idsOfN (n : Nat) (i : Int) : i ∈ idsOfN n ↔ 1 ≤ i ∧ i ≤ (n : Int) := by
  unfold idsOfN
  simp only [List.mem_map, List.mem_range]
  constructor
  · rintro ⟨k, hk, rfl⟩
    omega
  · rintro ⟨h1, h2⟩
    exact ⟨(i - 1).toNat, by omega, by omega⟩



/-- Updating matched elements by an id-preserving function maps the first
match of `find?` accordingly. -/
theorem find?_map_ite (store : List MenuItem) (item_id : Int) (f : MenuItem → MenuItem)
    (hf : ∀ x, (f x).id = x.id) (r : MenuItem)
    (h : store.find? (fun x => x.id == item_id) = some r) :
    (store.map (fun x => if x.id == item_id then f x else x)).find?
      (fun x => x.id == item_id) = some (f r) := by
  induction store with
  | nil => simp [List.find?] at h
  | cons y ys ih =>
      rw [List.find?_cons] at h
      by_cases hy : (y.id == item_id) = true
      · simp only [hy] at h
        obtain rfl : y = r := by injection h
        simp only [List.map_cons, if_pos hy]
        rw [List.find?_cons]
        have hfy : ((f y).id == item_id) = true := by rw [hf y]; exact hy
        rw [hfy]
      · have hy' : (y.id == item_id) = false := by simpa using hy
        simp only [hy'] at h
        simp only [List.map_cons, if_neg hy]
        rw [List.find?_cons]
        have hfy : (y.id == item_id) = false := hy'
        simp only [hfy]
        exact ih h

/-- C6: when the remote select finds the item (current quantity
`r.quantity`), `change_item_quantity` writes back `max 0 (current + delta)`,
so the stored quantity is never negative after the operation. -/
theorem change_quantity_floor (store : List MenuItem) (item_id delta : Int)
    (r : MenuItem) (h : store.find? (fun x => x.id == item_id) = some r) :
    (change_item_quantity store item_id delta).1.find? (fun x => x.id == item_id)
      = some { r with quantity := max 0 (r.quantity + delta) } ∧
    0 ≤ ({ r with quantity := max 0 (r.quantity + delta) } : MenuItem).quantity := by
  constructor
  · unfold change_item_quantity
    rw [h]
    exact find?_map_ite store item_id
      (fun x => { x with quantity := max 0 (r.quantity + delta) }) (fun x => rfl) r h
  · exact le_max_left 0 (r.quantity + delta)

/-- Witness for C6: the claim's own example — quantity 2, delta −5 — ends at
quantity `max 0 (2 − 5) = 0`. -/
theorem change_quantity_floor_witness :
    (change_item_quantity [sodaItem] 7 (-5)).1.find? (fun x => x.id == 7)
      = some { sodaItem with quantity := max 0 (sodaItem.quantity + -5) } ∧
    0 ≤ ({ sodaItem with quantity := max 0 (sodaItem.quantity + -5) } : MenuItem).quantity :=
  change_quantity_floor [sodaItem] 7 (-5) sodaItem (by decide)

/-- C7 counterexample: a run in which the update succeeds (item present,
quantity rewritten) and a run in which it fails (item absent, store
untouched) return the very same value `none`, so the return value cannot
indicate whether the update succeeded. -/
theorem change_quantity_returns_none_cex :
    (change_item_quantity [sodaItem] 7 (-5)).1 = [{ sodaItem with quantity := 0 }] ∧
    (change_item_quantity [] 7 (-5)).1 = [] ∧
    (change_item_quantity [sodaItem] 7 (-5)).2 = (change_item_quantity [] 7 (-5)).2 := by
  decide

/-- C7 amended: `change_item_quantity` has no `return` statement — it returns
`None` on every path, so callers cannot distinguish a failed decrement from a
successful one. -/
theorem change_quantity_no_success_indicator (store : List MenuItem) (item_id delta : Int) :
    (change_item_quantity store item_id delta).2 = none := by
  unfold change_item_quantity
  cases store.find? (fun x => x.id == item_id) <;> rfl

/-- Overwriting an existing key in place makes it readable back. -/
theorem lookupCart_map_set (c : Cart) (k : String) (v : Int)
    (hs : (c.find? (fun e => e.1 == k)).isSome = true) :
    lookupCart (c.map (fun e => if e.1 == k then (k, v) else e)) k = some v := by
  induction c with
  | nil => simp [List.find?] at hs
  | cons e c ih =>
      by_cases he : (e.1 == k) = true
      · unfold lookupCart
        simp only [List.map_cons, if_pos he]
        rw [List.find?_cons]
        have hk : (((k, v) : String × Int).1 == k) = true := by simp
        rw [hk]
        rfl
      · have he' : (e.1 == k) = false := by simpa using he
        rw [List.find?_cons] at hs
        simp only [he'] at hs
        unfold lookupCart
        simp only [List.map_cons, if_neg he]
        rw [List.find?_cons]
        simp only [he']
        exact ih hs

/-- Appending a fresh key makes it readable back. -/
theorem lookupCart_append_new (c : Cart) (k : String) (v : Int)
    (hn : c.find? (fun e => e.1 == k) = none) :
    lookupCart (c ++ [(k, v)]) k = some v := by
  unfold lookupCart
  rw [List.find?_append, hn]
  simp

/-- Writing a key into the session cart makes it readable back. -/
theorem lookupCart_setCart (c : Cart) (k : String) (v : Int) :
    lookupCart (setCart c k v) k = some v := by
  unfold setCart
  cases hs : c.find? (fun e => e.1 == k) with
  | some e =>
      simp only [Option.isSome_some, if_true]
      exact lookupCart_map_set c k v (by rw [hs]; rfl)
  | none =>
      simp only [Option.isSome_none, Bool.false_eq_true, if_false]
      exact lookupCart_append_new c k v hs

/-- Every entry of the cart after a dict write is the written pair or an old
entry. -/
theorem mem_setCart {c : Cart} {k : String} {v : Int} {e : String × Int}
    (h : e ∈ setCart c k v) : e = (k, v) ∨ e ∈ c := by
  unfold setCart at h
  by_cases hs : (c.find? (fun x => x.1 == k)).isSome
  · simp only [hs, if_true] at h
    rcases List.mem_map.mp h with ⟨x, hx, hfx⟩
    by_cases hxk : (x.1 == k) = true
    · rw [if_pos hxk] at hfx
      exact Or.inl hfx.symm
    · rw [if_neg hxk] at hfx
      exact Or.inr (hfx ▸ hx)
  · simp only [hs, if_false] at h
    rcases List.mem_append.mp h with h | h
    · exact Or.inr h
    · exact Or.inl (List.mem_singleton.mp h)

/-- A cart whose entries are all positive stays all-positive across
`cart_add`, since the increment `max 1 qty` is at least 1. -/
theorem cart_add_preserves_pos {c : Cart} (hpos : ∀ e ∈ c, 0 < e.2)
    (item_id qty : Int) : ∀ e ∈ cart_add c item_id qty, 0 < e.2 := by
  intro e he
  unfold cart_add at he
  rcases mem_setCart he with rfl | he
  · show 0 < (lookupCart c (toString item_id)).getD 0 + max 1 qty
    have h1 : (1 : Int) ≤ max 1 qty := le_max_left 1 qty
    cases hf : lookupCart c (toString item_id) with
    | none => simp only [hf, Option.getD_none]; linarith
    | some x =>
        unfold lookupCart at hf
        rcases Option.map_eq_some'.mp hf with ⟨e', he', rfl⟩
        have := hpos e' (List.mem_of_find?_eq_some he')
        simp only [hf, Option.getD_some]
        linarith
  · exact hpos e he

/-- Positivity of all cart entries is preserved by any sequence of adds. -/
theorem applyAdds_pos : ∀ (adds : List (Int × Int)) (c : Cart),
    (∀ e ∈ c, 0 < e.2) → ∀ e ∈ applyAdds adds c, 0 < e.2 := by
  intro adds
  induction adds with
  | nil => intro c hc e he; exact hc e he
  | cons a rest ih =>
      intro c hc e he
      exact ih (cart_add c a.1 a.2) (cart_add_preserves_pos hc a.1 a.2) e he

/-- C10: a cart-add request for item `item_id` with requested quantity `qty`
increments that item's entry by `max 1 qty` (so a request with `qty ≤ 0`
still adds 1), and consequently after any sequence of cart-add requests
starting from the empty session cart every entry is positive. -/
theorem cart_add_positive (cart : Cart) (item_id qty : Int)
    (adds : List (Int × Int)) (kv : String × Int) (hmem : kv ∈ applyAdds adds []) :
    lookupCart (cart_add cart item_id qty) (toString item_id)
      = some ((lookupCart cart (toString item_id)).getD 0 + max 1 qty) ∧
    0 < kv.2 := by
  constructor
  · unfold cart_add
    exact lookupCart_setCart cart (toString item_id) _
  · exact applyAdds_pos adds [] (by intro e he; simp at he) kv hmem

/-- Witness for C10: adding quantity −2 to an existing entry of 2 yields
`2 + max 1 (−2) = 3`, and the entry reached by the request sequence
`[(7, 0), (7, 3)]` from the empty cart is `("7", 4)`, which is positive. -/
theorem cart_add_positive_witness :
    lookupCart (cart_add [("5", 2)] 5 (-2)) (toString (5 : Int))
      = some ((lookupCart [("5", 2)] (toString (5 : Int))).getD 0 + max 1 (-2)) ∧
    0 < (("7", 4) : String × Int).2 :=
  cart_add_positive [("5", 2)] 5 (-2) [(7, 0), (7, 3)] ("7", 4) (by decide)

/-- C2 counterexample: a checkout of the non-empty cart `{"7": 2}` with a
configured phone number completes (link built, cart cleared) while issuing
ZERO inventory-decrement calls — the claim requires one decrement per cart
item. -/
theorem checkout_no_decrement_cex :
    (cart_checkout "5551234567" "Alex" [("7", 2)] [sodaItem] (some [sodaItem])).decrements = [] ∧
    (cart_checkout "5551234567" "Alex" [("7", 2)] [sodaItem] (some [sodaItem])).cart = [] ∧
    ([("7", 2)] : Cart) ≠ [] := by
  decide

/-- C2 amended: the checkout route issues no inventory-decrement calls at all;
when the cart is non-empty and a messaging phone number is configured it
builds the deep link and clears the cart, and when no phone is configured the
cart is left unchanged and the user is redirected to settings. -/
theorem checkout_clears_cart_without_decrements (phone customer : String)
    (cart : Cart) (products : List MenuItem) (remote : Option (List MenuItem)) :
    (cart_checkout phone customer cart products remote).decrements = [] ∧
    (cart ≠ [] → phone ≠ "" → (cart_checkout phone customer cart products remote).cart = []) ∧
    (phone = "" → (cart_checkout phone customer cart products remote).cart = cart) ∧
    (cart = [] → (cart_checkout phone customer cart products remote).cart = cart) := by
  unfold cart_checkout
  by_cases hc : cart = [] <;> by_cases hp : phone = "" <;>
    simp [hc, hp]

/-- Witness for C2 (amended): concrete non-empty cart, configured phone. -/
theorem checkout_clears_cart_without_decrements_witness :
    (cart_checkout "555" "Alex" [("7", 2)] [sodaItem] (some [sodaItem])).decrements = [] ∧
    (cart_checkout "555" "Alex" [("7", 2)] [sodaItem] (some [sodaItem])).cart = [] :=
  ⟨(checkout_clears_cart_without_decrements "555" "Alex" [("7", 2)] [sodaItem]
      (some [sodaItem])).1,
   (checkout_clears_cart_without_decrements "555" "Alex" [("7", 2)] [sodaItem]
      (some [sodaItem])).2.1 (by decide) (by decide)⟩

/-- C9: for the cart `{"7": 2}` with item 7 = Soda at $1.50 and customer
"Alex" (and any configured phone, the item reachable in the remote store),
the built message contains the line `Soda x2 - $3.00` and the subtotal line
`Subtotal: $3.00`, and the cart is cleared. -/
theorem checkout_message_literal (phone : String) (hp : phone ≠ "") :
    "Soda x2 - $3.00" ∈ (cart_checkout phone "Alex" [("7", 2)] [sodaItem] (some [sodaItem])).messageLines ∧
    "Subtotal: $3.00" ∈ (cart_checkout phone "Alex" [("7", 2)] [sodaItem] (some [sodaItem])).messageLines ∧
    (cart_checkout phone "Alex" [("7", 2)] [sodaItem] (some [sodaItem])).cart = [] := by
  have h : cart_checkout phone "Alex" [("7", 2)] [sodaItem] (some [sodaItem]) =
      { messageLines := ["Order for Alex", sepLine, "Soda x2 - $3.00", sepLine, "Subtotal: $3.00"],
        cart := [], decrements := [],
        redirect := .waLink (pyLStripPlus phone)
          ["Order for Alex", sepLine, "Soda x2 - $3.00", sepLine, "Subtotal: $3.00"] } := by
    unfold cart_checkout
    rw [if_neg (by decide), if_neg hp]
    rfl
  rw [h]
  refine ⟨by simp, by simp, rfl⟩

/-- Witness for C9 at a concrete phone number. -/
theorem checkout_message_literal_witness :
    "Soda x2 - $3.00" ∈ (cart_checkout "5926001234" "Alex" [("7", 2)] [sodaItem] (some [sodaItem])).messageLines ∧
    "Subtotal: $3.00" ∈ (cart_checkout "5926001234" "Alex" [("7", 2)] [sodaItem] (some [sodaItem])).messageLines ∧
    (cart_checkout "5926001234" "Alex" [("7", 2)] [sodaItem] (some [sodaItem])).cart = [] :=
  checkout_message_literal "5926001234" (by decide)

/-- C1 counterexample: snapshot loaded at T = 0, read again at T + 31 with the
on-disk file untouched (still holding the non-empty snapshot `[sodaItem]`)
and the remote reachable (it would return `[teaItem]`): the read is served
from the re-read file with ZERO remote list calls, not exactly one. -/
theorem stale_read_no_remote_refresh_cex :
    (list_items 31 diskFull (some [teaItem]) stLoaded).remoteCalls = 0 ∧
    (list_items 31 diskFull (some [teaItem]) stLoaded).value = [sodaItem] ∧
    (list_items 31 diskFull (some [teaItem]) stLoaded).remoteCalls ≠ 1 := by
  decide

/-- C1 amended: a snapshot loaded at time T and read again at T + 31s with the
on-disk file untouched and non-empty triggers ZERO remote list calls: the
expired in-memory snapshot is refreshed by re-reading the on-disk file (the
in-memory timestamp advances to the read time) and the file's contents are
served; the remote store is never consulted in this situation, reachable or
not. -/
theorem stale_read_served_from_disk (T : Nat) (l : List MenuItem) (hl : l ≠ [])
    (disk : Disk) (hd : disk.products = FileState.content l)
    (remote : Option (List MenuItem)) (st : CacheState)
    (ht : st.products_cache_time = T) :
    (list_items (T + 31) disk remote st).remoteCalls = 0 ∧
    (list_items (T + 31) disk remote st).value = l ∧
    (list_items (T + 31) disk remote st).state.products_cache = some l ∧
    (list_items (T + 31) disk remote st).state.products_cache_time = T + 31 := by
  subst ht
  have hload : loadProductsPart (st.products_cache_time + 31) disk st =
      { st with products_cache := some l,
                products_cache_time := st.products_cache_time + 31 } := by
    unfold loadProductsPart
    rw [if_pos (Or.inr (by unfold CACHE_DURATION; omega)), hd]
  have hpc : (loadCategoriesPart (st.products_cache_time + 31) disk
      { st with products_cache := some l,
                products_cache_time := st.products_cache_time + 31 }).products_cache
      = some l := by
    rw [loadCategoriesPart_products_cache]
  have hpt : (loadCategoriesPart (st.products_cache_time + 31) disk
      { st with products_cache := some l,
                products_cache_time := st.products_cache_time + 31 }).products_cache_time
      = st.products_cache_time + 31 := by
    rw [loadCategoriesPart_products_cache_time]
  unfold list_items load_json_cache
  rw [hload]
  simp only [hpc, Option.getD_some]
  rw [if_pos hl]
  exact ⟨rfl, rfl, hpc, hpt⟩

/-- Witness for C1 (amended) at the concrete scenario of the counterexample. -/
theorem stale_read_served_from_disk_witness :
    (list_items (0 + 31) diskFull (some [teaItem]) stLoaded).remoteCalls = 0 ∧
    (list_items (0 + 31) diskFull (some [teaItem]) stLoaded).value = [sodaItem] ∧
    (list_items (0 + 31) diskFull (some [teaItem]) stLoaded).state.products_cache = some [sodaItem] ∧
    (list_items (0 + 31) diskFull (some [teaItem]) stLoaded).state.products_cache_time = 0 + 31 :=
  stale_read_served_from_disk 0 [sodaItem] (by decide) diskFull (by rfl)
    (some [teaItem]) stLoaded (by rfl)

/-- C4 counterexample: first read of categories with no snapshot loaded and no
on-disk file, remote reachable (it would return `[startersCat]`): the read
returns the hardcoded default with ZERO remote calls instead of pulling from
the remote store as the claim requires. -/
theorem categories_skip_remote_cex :
    (list_categories 0 diskEmpty (some [startersCat]) stEmpty).value = defaultAllCategories ∧
    (list_categories 0 diskEmpty (some [startersCat]) stEmpty).remoteCalls = 0 ∧
    defaultAllCategories ≠ [startersCat] := by
  decide

/-- C4 amended: on a first read with no snapshot and no on-disk file, ITEMS
follow the claimed chain (remote pull, else empty default), but CATEGORIES
are served the hardcoded `[{id:1, name:"All", slug:"all"}]` installed by the
loader without ever consulting the remote store. -/
theorem first_read_fallback_chain (now : Nat) (disk : Disk) (st : CacheState)
    (ritems : Option (List MenuItem)) (rcats : Option (List Category))
    (hpc : st.products_cache = none) (hpd : disk.products = FileState.absent)
    (hcc : st.categories_cache = none) (hcd : disk.categories = FileState.absent) :
    (list_items now disk ritems st).value = ritems.getD [] ∧
    (list_items now disk ritems st).remoteCalls = 1 ∧
    (list_categories now disk rcats st).value = defaultAllCategories ∧
    (list_categories now disk rcats st).remoteCalls = 0 := by
  have hload : load_json_cache now disk st =
      { st with products_cache := some [],
                categories_cache := some defaultAllCategories } := by
    unfold load_json_cache loadProductsPart
    rw [if_pos (Or.inl (by rw [hpc]; rfl)), hpd]
    unfold loadCategoriesPart
    rw [if_pos (Or.inl (by simp [hcc])), hcd]
  refine ⟨?_, ?_, ?_, ?_⟩
  · unfold list_items
    rw [hload]
    cases ritems <;> rfl
  · unfold list_items
    rw [hload]
    cases ritems <;> rfl
  · unfold list_categories
    rw [hload]
    rfl
  · unfold list_categories
    rw [hload]
    rfl

/-- Witness for C4 (amended): first read, no files, both remotes reachable. -/
theorem first_read_fallback_chain_witness :
    (list_items 0 diskEmpty (some [teaItem]) stEmpty).value = (some [teaItem]).getD [] ∧
    (list_items 0 diskEmpty (some [teaItem]) stEmpty).remoteCalls = 1 ∧
    (list_categories 0 diskEmpty (some [startersCat]) stEmpty).value = defaultAllCategories ∧
    (list_categories 0 diskEmpty (some [startersCat]) stEmpty).remoteCalls = 0 :=
  first_read_fallback_chain 0 diskEmpty stEmpty (some [teaItem]) (some [startersCat])
    (by rfl) (by rfl) (by rfl) (by rfl)

/-- C3 counterexample: deleting item 7 from the snapshot `[sodaItem]` empties
it; the in-memory snapshot becomes `[]` but the saver's truthiness guard
skips the file write, so the on-disk file still holds the deleted item and no
longer matches the in-memory snapshot. -/
theorem delete_empty_skips_flush_cex :
    (delete_item 0 diskFull stLoaded 7).1.products_cache = some [] ∧
    (delete_item 0 diskFull stLoaded 7).2.products = FileState.content [sodaItem] ∧
    FileState.content ([] : List MenuItem) ≠ FileState.content [sodaItem] := by
  decide

/-- C3 amended: a successful create always flushes the full (necessarily
non-empty) updated snapshot to the products file, and a delete flushes it
exactly when the resulting snapshot is non-empty; a delete that empties the
snapshot skips the file write, leaving the on-disk file with its previous
contents, diverging from the in-memory snapshot. -/
theorem write_flush_policy (now : Nat) (disk : Disk) (st : CacheState) (item_id : Int)
    (nowStr : String) (cid : Int) (nm : String) (dsc : Option String)
    (pr : Option Cents) (img : Option String) (q : Option Int)
    (st' : CacheState) (disk' : Disk) :
    ((delete_item now disk st item_id).1.products_cache.getD [] ≠ [] →
        (delete_item now disk st item_id).2.products
          = FileState.content ((delete_item now disk st item_id).1.products_cache.getD [])) ∧
    ((delete_item now disk st item_id).1.products_cache.getD [] = [] →
        (delete_item now disk st item_id).2.products = disk.products) ∧
    (create_item now nowStr disk st cid nm dsc pr img q = .ok (st', disk') →
        st'.products_cache.getD [] ≠ [] ∧
        disk'.products = FileState.content (st'.products_cache.getD [])) := by
  refine ⟨?_, ?_, ?_⟩
  · intro hne
    unfold delete_item at hne ⊢
    simp only [Option.getD_some] at hne ⊢
    rw [save_products_file]
    simp only [Option.getD_some]
    rw [if_pos hne]
  · intro he
    unfold delete_item at he ⊢
    simp only [Option.getD_some] at he ⊢
    rw [save_products_file]
    simp only [Option.getD_some]
    rw [he, if_neg (by simp)]
  · intro hok
    unfold create_item at hok
    by_cases hn : pyStrip nm = ""
    · rw [if_pos hn] at hok
      exact absurd hok (by simp)
    · rw [if_neg hn] at hok
      simp only [Except.ok.injEq, Prod.mk.injEq] at hok
      obtain ⟨hst, hdisk⟩ := hok
      subst hst
      subst hdisk
      simp only [Option.getD_some]
      constructor
      · exact fun h => List.append_ne_nil_of_right_ne_nil _ (by simp) h
      · rw [save_products_file]
        simp only [Option.getD_some]
        rw [if_pos (List.append_ne_nil_of_right_ne_nil _ (by simp))]

/-- Witness for C3 (amended): the delete-to-empty case keeps the old file
contents, and a concrete successful create flushes the new snapshot. -/
theorem write_flush_policy_witness :
    (delete_item 0 diskFull stLoaded 7).2.products = diskFull.products ∧
    (stAfterCreate.products_cache.getD [] ≠ [] ∧
      diskAfterCreate.products = FileState.content (stAfterCreate.products_cache.getD [])) :=
  ⟨(write_flush_policy 0 diskFull stLoaded 7 "t1" 1 "Tea" none none none none
      stAfterCreate diskAfterCreate).2.1 (by decide),
   (write_flush_policy 0 diskFull stLoaded 7 "t1" 1 "Tea" none none none none
      stAfterCreate diskAfterCreate).2.2 (by rfl)⟩

/-- C5 counterexample: `update_item` with the empty name performs no
validation — it succeeds and mutates the snapshot, renaming item 7 to the
empty string (and, as the source always overwrites them, resetting its
price/description/image from the supplied arguments) — where the claim
requires a `ValidationError` and an unchanged snapshot. -/
theorem update_without_validation_cex :
    (update_item 0 diskFull stLoaded 7 "" none none none none).1.products_cache
      = some [{ sodaItem with name := "", description := none, price := none, image_url := none }] ∧
    (update_item 0 diskFull stLoaded 7 "" none none none none).1.products_cache
      ≠ stLoaded.products_cache := by
  decide

/-- If some element satisfies `p`, the updated list contains the image under
`g` of such an element. -/
theorem updateFirst_exists {α : Type} (p : α → Bool) (g : α → α) (l : List α)
    (hx : ∃ x ∈ l, p x = true) :
    ∃ x ∈ l, p x = true ∧ g x ∈ updateFirst p g l := by
  induction l with
  | nil => simp at hx
  | cons y ys ih =>
      by_cases hy : p y = true
      · exact ⟨y, List.mem_cons_self y ys, hy, by
          unfold updateFirst
          rw [if_pos hy]
          exact List.mem_cons_self _ _⟩
      · obtain ⟨x, hxl, hpx⟩ := hx
        rcases List.mem_cons.mp hxl with rfl | hxl
        · exact absurd hpx hy
        · obtain ⟨x', hx', hp', hg'⟩ := ih ⟨x, hxl, hpx⟩
          refine ⟨x', List.mem_cons_of_mem _ hx', hp', ?_⟩
          unfold updateFirst
          rw [if_neg hy]
          exact List.mem_cons_of_mem _ hg'

/-- C5 amended: only the CREATE operations validate the name — both raise
their `ValueError` on a missing/empty (stripped) name before touching the
snapshot — while UPDATE performs no validation: an update with an empty name
is applied, writing the empty name into the matched item; deletes take no
name at all. -/
theorem create_validates_name (now : Nat) (nowStr : String) (disk : Disk)
    (st : CacheState) (nm : String) (hnm : pyStrip nm = "") (cid : Int)
    (dsc : Option String) (pr : Option Cents) (img : Option String)
    (q : Option Int) (item_id : Int) :
    create_category now disk st nm = .error "Category name is required" ∧
    create_item now nowStr disk st cid nm dsc pr img q = .error "Item name is required" ∧
    (∀ it ∈ (load_json_cache now disk st).products_cache.getD [], it.id = item_id →
      ∃ it' ∈ (update_item now disk st item_id nm dsc pr img q).1.products_cache.getD [],
        it'.id = item_id ∧ it'.name = "") := by
  refine ⟨?_, ?_, ?_⟩
  · unfold create_category
    rw [if_pos hnm]
  · unfold create_item
    rw [if_pos hnm]
  · intro it hit hid
    have hx : ∃ x ∈ (load_json_cache now disk st).products_cache.getD [],
        (x.id == item_id) = true := ⟨it, hit, by simp [hid]⟩
    obtain ⟨x, hxmem, hpx, hgx⟩ := updateFirst_exists (fun x => x.id == item_id)
      (fun item =>
        { item with
          name := pyStrip nm
          description := strippedOrNone dsc
          price := pr
          image_url := strippedOrNone img
          quantity := q.getD item.quantity })
      ((load_json_cache now disk st).products_cache.getD []) hx
    refine ⟨{ x with
        name := pyStrip nm
        description := strippedOrNone dsc
        price := pr
        image_url := strippedOrNone img
        quantity := q.getD x.quantity }, ?_, ?_, ?_⟩
    · unfold update_item
      simp only [Option.getD_some]
      exact hgx
    · show x.id = item_id
      simpa using hpx
    · show pyStrip nm = ""
      exact hnm

/-- Witness for C5 (amended): empty-name creates fail; the empty-name update
on the loaded snapshot `[sodaItem]` yields an item with id 7 and empty name. -/
theorem create_validates_name_witness :
    create_category 0 diskFull stLoaded " " = .error "Category name is required" ∧
    create_item 0 "t2" diskFull stLoaded 1 " " none none none none
      = .error "Item name is required" ∧
    (∃ it' ∈ (update_item 0 diskFull stLoaded 7 " " none none none none).1.products_cache.getD [],
      it'.id = 7 ∧ it'.name = "") := by
  have h := create_validates_name 0 "t2" diskFull stLoaded " " (by rfl) 1
    none none none none 7
  exact ⟨h.1, h.2.1, h.2.2 sodaItem (by decide) (by decide)⟩

/-- One `create_item` call on a fresh state with a valid name: appends the
new item (id `max ids + 1`) and saves; the timestamps and categories are
untouched. -/
theorem create_item_fresh (now : Nat) (nowStr : String) (disk : Disk)
    (l : List MenuItem) (cid : Int) (nm : String) (hnm : ¬ pyStrip nm = "")
    (dsc : Option String) (pr : Option Cents) (img : Option String) (qt : Option Int) :
    create_item now nowStr disk (freshState now l) cid nm dsc pr img qt
      = .ok (freshState now (l ++ [createdItem l cid nm dsc pr img qt nowStr]),
          save_json_cache
            (freshState now (l ++ [createdItem l cid nm dsc pr img qt nowStr])) disk) := by
  unfold create_item freshState createdItem
  rw [if_neg hnm]
  rw [show load_json_cache now disk
      { products_cache := some l, products_cache_time := now,
        categories_cache := some defaultAllCategories, categories_cache_time := now }
      = { products_cache := some l, products_cache_time := now,
          categories_cache := some defaultAllCategories, categories_cache_time := now }
    from load_fresh now disk l defaultAllCategories]
  rfl

/-- Invariant of the sequential-create run: starting from a fresh state whose
snapshot carries the ids `[1..n]`, every later state is fresh with ids
`[1..n']`. -/
theorem runCreates_ids (now : Nat) (nowStr : String) :
    ∀ (args : List ItemArgs) (l : List MenuItem) (disk : Disk),
    (∀ a ∈ args, ¬ pyStrip a.name = "") →
    l.map (fun i => i.id) = idsOfN l.length →
    ∃ l', (runCreates now nowStr args (freshState now l, disk)).1 = freshState now l' ∧
      l'.map (fun i => i.id) = idsOfN l'.length ∧ l'.length = l.length + args.length := by
  intro args
  induction args with
  | nil =>
      intro l disk hv hl
      exact ⟨l, rfl, hl, by simp [runCreates]⟩
  | cons a rest ih =>
      intro l disk hv hl
      have hname : ¬ pyStrip a.name = "" := hv a (List.mem_cons_self a rest)
      have hstep := create_item_fresh now nowStr disk l a.category_id a.name hname
        a.description a.price a.image_url a.quantity
      rw [show runCreates now nowStr (a :: rest) (freshState now l, disk)
          = runCreates now nowStr rest
              (freshState now
                (l ++ [createdItem l a.category_id a.name a.description a.price
                  a.image_url a.quantity nowStr]),
               save_json_cache
                (freshState now
                  (l ++ [createdItem l a.category_id a.name a.description a.price
                    a.image_url a.quantity nowStr])) disk)
        from by simp only [runCreates, hstep]]
      have hid : (createdItem l a.category_id a.name a.description a.price
          a.image_url a.quantity nowStr).id = (l.length : Int) + 1 := by
        show new_id_of (l.map (fun i => i.id)) = _
        rw [hl, new_id_of_idsOfN]
      have hl' : (l ++ [createdItem l a.category_id a.name a.description a.price
          a.image_url a.quantity nowStr]).map (fun i => i.id)
          = idsOfN (l ++ [createdItem l a.category_id a.name a.description a.price
              a.image_url a.quantity nowStr]).length := by
        rw [List.map_append, hl, List.length_append]
        simp only [List.map_cons, List.map_nil, List.length_cons, List.length_nil,
          Nat.zero_add]
        rw [hid, idsOfN_succ]
      obtain ⟨l', h1, h2, h3⟩ := ih
        (l ++ [createdItem l a.category_id a.name a.description a.price
          a.image_url a.quantity nowStr])
        (save_json_cache (freshState now
          (l ++ [createdItem l a.category_id a.name a.description a.price
            a.image_url a.quantity nowStr])) disk)
        (fun b hb => hv b (List.mem_cons_of_mem a hb)) hl'
      refine ⟨l', h1, h2, ?_⟩
      rw [h3, List.length_append]
      simp only [List.length_cons, List.length_nil]
      omega

/-- C8: starting from the EMPTY snapshot, any sequence of N sequential
(non-concurrent, same-TTL-window) `create_item` calls with valid names
assigns ids `max(existing ids) + 1`, producing exactly the id list
`[1, 2, ..., N]` — no duplicates. -/
theorem sequential_create_ids (now : Nat) (nowStr : String) (disk : Disk)
    (args : List ItemArgs) (hv : ∀ a ∈ args, ¬ pyStrip a.name = "") :
    ((runCreates now nowStr args (freshState now [], disk)).1.products_cache.getD []).map
        (fun i => i.id) = idsOfN args.length ∧
    (idsOfN args.length).Nodup := by
  obtain ⟨l', h1, h2, h3⟩ := runCreates_ids now nowStr args [] disk hv (by rfl)
  rw [h1]
  constructor
  · show l'.map (fun i => i.id) = idsOfN args.length
    rw [h2]
    simp only [List.length_nil, Nat.zero_add] at h3
    rw [h3]
  · exact idsOfN_nodup args.length

/-- Witness for C8: two creates ("Tea", "Pie") from the empty snapshot give
the id list `[1, 2]`. -/
theorem sequential_create_ids_witness :
    ((runCreates 0 "t" [⟨1, "Tea", none, none, none, none⟩, ⟨1, "Pie", none, none, none, none⟩]
        (freshState 0 [], diskEmpty)).1.products_cache.getD []).map
        (fun i => i.id) = idsOfN 2 ∧
    (idsOfN 2).Nodup :=
  sequential_create_ids 0 "t" diskEmpty
    [⟨1, "Tea", none, none, none, none⟩, ⟨1, "Pie", none, none, none, none⟩]
    (by decide)
